import Mathlib

/-!
Verification development for the SentinelAI Root Cause Analysis Engine and
Remediation Matching Engine, together with two presentation/logging
components that do live in the repository (the dashboard's
`RemediationGuidance` React component and the demo app's `MongoTransport`
Winston transport).

The core Python engine (`ai-engine/src/analysis/root_cause_analysis.py` and
the remediation engine) is referenced by the repository's documentation and
callers but its source is not present; those components are modelled from
the specification, as marked on each definition.  Floating-point numbers are
modelled as rationals (`ℚ`); timestamps are instants on a rational time
line, durations are rational numbers of the same unit.
-/

namespace SentinelAI

/-- Clamp a rational to the interval [0,1]. -/
def clamp01 (x : ℚ) : ℚ := max 0 (min 1 x)

/-- Length of a longest common subsequence of two character lists, the
classic two-way recursion. -/
def lcsLen : List Char → List Char → ℕ
  | [], _ => 0
  | _ :: _, [] => 0
  | a :: as, b :: bs =>
      if a = b then lcsLen as bs + 1
      else max (lcsLen (a :: as) bs) (lcsLen as (b :: bs))
termination_by l₁ l₂ => l₁.length + l₂.length
decreasing_by all_goals simp +arith

/-- Modelled from the spec: the Similarity Scorer (§4.1) of the missing core
engine — a deterministic character sequence-matching ratio
(longest-common-subsequence-based): `2 * LCS(a,b) / (|a| + |b|)`, with two
empty strings rated 1 (the convention of sequence-matcher ratios). -/
def similarity (a b : String) : ℚ :=
  if a.data.isEmpty && b.data.isEmpty then 1
  else 2 * (lcsLen a.data b.data : ℚ) / ((a.data.length : ℚ) + (b.data.length : ℚ))

/-- Modelled from the spec: the AnomalyRecord input shape (§3) of the missing
core engine — `timestamp` (instant), `service`, `message`,
`anomaly_score` (float 0–1), `is_anomaly` (bool). -/
structure AnomalyRecord where
  timestamp : ℚ
  service : String
  message : String
  anomaly_score : ℚ
  is_anomaly : Bool
deriving DecidableEq, Repr

/-- Modelled from the spec: the configuration surface of the missing core
engine (§6): grouping `time_window`, `similarity_threshold`, the three
confidence-formula weights, and the `time_window_max` reference span used
by the tightness signal. -/
structure Config where
  time_window : ℚ
  similarity_threshold : ℚ
  w_sev : ℚ
  w_casc : ℚ
  w_tight : ℚ
  time_window_max : ℚ
deriving DecidableEq, Repr

/-- Modelled from the spec: the default configuration (§6): window = 2
minutes (120 s), threshold = 0.6, weights 0.4/0.3/0.3, and a reference span
that is a multiple of the grouping window (we take twice the window). -/
def defaultConfig : Config :=
  { time_window := 120, similarity_threshold := 0.6,
    w_sev := 0.4, w_casc := 0.3, w_tight := 0.3, time_window_max := 240 }

/-- Timestamp-ascending ordering on anomaly records. -/
def tsLE (a b : AnomalyRecord) : Prop := a.timestamp ≤ b.timestamp

instance : DecidableRel tsLE := fun a b =>
  inferInstanceAs (Decidable (a.timestamp ≤ b.timestamp))

instance : IsTotal AnomalyRecord tsLE := ⟨fun a b => le_total a.timestamp b.timestamp⟩

instance : IsTrans AnomalyRecord tsLE := ⟨fun _ _ _ => le_trans⟩

/-- Stable sort of records by timestamp ascending (§4.2: ties in timestamp
are broken by original input order, insertion sort is stable). -/
def sortByTs (l : List AnomalyRecord) : List AnomalyRecord := List.insertionSort tsLE l

/-- Modelled from the spec: the Root Cause Selector (§4.3) of the missing
core engine — sort the cluster by timestamp ascending; the first element is
the root cause, all others are symptoms.  `none` only on the empty list,
which is not a cluster. -/
def select_root_cause (l : List AnomalyRecord) : Option (AnomalyRecord × List AnomalyRecord) :=
  match sortByTs l with
  | [] => none
  | r :: rest => some (r, rest)

/-- Concrete record fixtures used by witnesses: three anomalies of one
service with timestamps 1 < 2 < 3 and unordered anomaly scores. -/
def recA : AnomalyRecord := ⟨1, "db", "x", 1, true⟩

def recB : AnomalyRecord := ⟨2, "db", "y", 0, true⟩

def recC : AnomalyRecord := ⟨3, "db", "z", 1, true⟩

/-- Minimum timestamp of a list of records (0 for the empty list, which the
engine never produces as a cluster). -/
def minTs : List AnomalyRecord → ℚ
  | [] => 0
  | r :: rs => rs.foldl (fun acc x => min acc x.timestamp) r.timestamp

/-- Maximum timestamp of a list of records. -/
def maxTs : List AnomalyRecord → ℚ
  | [] => 0
  | r :: rs => rs.foldl (fun acc x => max acc x.timestamp) r.timestamp

/-- Modelled from the spec: `cluster_time_span` (§4.4) — the duration between
the earliest and the latest member timestamps. -/
def clusterSpan (l : List AnomalyRecord) : ℚ := maxTs l - minTs l

/-- Modelled from the spec: the `severity` signal (§4.4) — the average
`anomaly_score` across the cluster, clamped to [0,1]. -/
def severity (l : List AnomalyRecord) : ℚ :=
  clamp01 ((l.map (·.anomaly_score)).sum / l.length)

/-- Modelled from the spec: the `cascade_size` signal (§4.4) —
`min(cluster_size / 10, 1.0)`. -/
def cascade_size (l : List AnomalyRecord) : ℚ :=
  min ((l.length : ℚ) / 10) 1

/-- Modelled from the spec: the `tightness` signal (§4.4) —
`1.0 - min(cluster_time_span / time_window_max, 1.0)`. -/
def tightness (cfg : Config) (l : List AnomalyRecord) : ℚ :=
  1 - min (clusterSpan l / cfg.time_window_max) 1

/-- Modelled from the spec: the Confidence Scorer (§4.4) —
`confidence = w_sev * severity + w_casc * cascade_size + w_tight * tightness`,
clamped to [0,1]; the default weights are 0.4/0.3/0.3. -/
def score (cfg : Config) (l : List AnomalyRecord) : ℚ :=
  clamp01 (cfg.w_sev * severity l + cfg.w_casc * cascade_size l +
    cfg.w_tight * tightness cfg l)

/-- Modelled from the spec: a Cluster (§3) — a non-empty ordered sequence of
records of one service; `root` is the earliest member (the representative),
`rest` the members in attachment order. -/
structure Cluster where
  root : AnomalyRecord
  rest : List AnomalyRecord
deriving DecidableEq, Repr

/-- All members of a cluster, root first. -/
def Cluster.members (c : Cluster) : List AnomalyRecord := c.root :: c.rest

/-- The most recently attached member of a cluster. -/
def Cluster.latest (c : Cluster) : AnomalyRecord := c.rest.getLastD c.root

/-- Modelled from the spec: the attachment test of the Temporal Grouper
(§4.2) — (a) the record's timestamp is within `time_window` of the
cluster's latest member's timestamp, and (b) its message similarity to the
cluster's representative (earliest) message is at or above the
threshold. -/
def attachOk (cfg : Config) (c : Cluster) (r : AnomalyRecord) : Bool :=
  decide (r.timestamp - c.latest.timestamp ≤ cfg.time_window) &&
  decide (cfg.similarity_threshold ≤ similarity r.message c.root.message)

/-- Modelled from the spec: one step of the greedy chaining pass (§4.2) —
attach the record to the most recently created open cluster when the
attachment test passes, otherwise start a new cluster.  The open cluster is
kept at the head of the accumulator. -/
def groupStep (cfg : Config) (acc : List Cluster) (r : AnomalyRecord) : List Cluster :=
  match acc with
  | [] => [⟨r, []⟩]
  | c :: done =>
      if attachOk cfg c r then ⟨c.root, c.rest ++ [r]⟩ :: done
      else ⟨r, []⟩ :: c :: done

/-- Modelled from the spec: per-service grouping (§4.2) — sort the
service's anomalies by timestamp ascending (stable) and run the greedy
single-pass chaining; clusters are returned in creation order. -/
def groupService (cfg : Config) (l : List AnomalyRecord) : List Cluster :=
  ((sortByTs l).foldl (groupStep cfg) []).reverse

/-- First-occurrence deduplication of a list of service names, preserving
input order. -/
def dedupKeepFirst : List String → List String
  | [] => []
  | s :: rest => s :: (dedupKeepFirst rest).filter (fun t => !(t == s))

/-- Modelled from the spec: RootCauseResult (§3) — the per-cluster output
record of the missing core engine. -/
structure RootCauseResult where
  root_cause_service : String
  root_cause_message : String
  root_cause_timestamp : ℚ
  confidence_score : ℚ
  affected_services : List String
  total_anomalies : ℕ
  avg_anomaly_score : ℚ
  analysis_timestamp : ℚ
deriving DecidableEq, Repr

/-- Modelled from the spec: building one RootCauseResult from a cluster
(§4.5); the root cause is the earliest member (§4.3).  The secondary
cross-service pass populating `affected_services` is underspecified (§9
open question); we record the services touched by the cluster's own
members. -/
def mkResult (cfg : Config) (now : ℚ) (c : Cluster) : RootCauseResult :=
  let members := c.members
  let root := (sortByTs members).headD c.root
  { root_cause_service := root.service
    root_cause_message := root.message
    root_cause_timestamp := root.timestamp
    confidence_score := score cfg members
    affected_services := dedupKeepFirst (members.map (·.service))
    total_anomalies := members.length
    avg_anomaly_score := (members.map (·.anomaly_score)).sum / members.length
    analysis_timestamp := now }

/-- Modelled from the spec: the deterministic output ordering (§4.5) —
confidence descending, ties by total anomalies descending, remaining ties
by root-cause timestamp ascending. -/
def resLE (a b : RootCauseResult) : Prop :=
  b.confidence_score < a.confidence_score ∨
    (a.confidence_score = b.confidence_score ∧
      (b.total_anomalies < a.total_anomalies ∨
        (a.total_anomalies = b.total_anomalies ∧
          a.root_cause_timestamp ≤ b.root_cause_timestamp)))

instance : DecidableRel resLE := fun a b => by
  unfold resLE
  infer_instance

instance : IsTotal RootCauseResult resLE := ⟨by
  intro a b
  unfold resLE
  rcases lt_trichotomy a.confidence_score b.confidence_score with h | h | h
  · exact Or.inr (Or.inl h)
  · rcases lt_trichotomy a.total_anomalies b.total_anomalies with h2 | h2 | h2
    · exact Or.inr (Or.inr ⟨h.symm, Or.inl h2⟩)
    · rcases le_total a.root_cause_timestamp b.root_cause_timestamp with h3 | h3
      · exact Or.inl (Or.inr ⟨h, Or.inr ⟨h2, h3⟩⟩)
      · exact Or.inr (Or.inr ⟨h.symm, Or.inr ⟨h2.symm, h3⟩⟩)
    · exact Or.inl (Or.inr ⟨h, Or.inl h2⟩)
  · exact Or.inl (Or.inl h)⟩

instance : IsTrans RootCauseResult resLE := ⟨by
  intro a b c hab hbc
  unfold resLE at hab hbc ⊢
  rcases hab with h1 | ⟨e1, h1⟩ <;> rcases hbc with h2 | ⟨e2, h2⟩
  · exact Or.inl (lt_trans h2 h1)
  · exact Or.inl (by rw [← e2]; exact h1)
  · exact Or.inl (by rw [e1]; exact h2)
  · refine Or.inr ⟨e1.trans e2, ?_⟩
    rcases h1 with hn1 | ⟨en1, ht1⟩ <;> rcases h2 with hn2 | ⟨en2, ht2⟩
    · exact Or.inl (lt_trans hn2 hn1)
    · exact Or.inl (by omega)
    · exact Or.inl (by omega)
    · exact Or.inr ⟨en1.trans en2, le_trans ht1 ht2⟩⟩

/-- Modelled from the spec: the Root Cause Analyzer orchestration (§4.5) —
filter to records with `is_anomaly = true`, group per service, build one
RootCauseResult per cluster, sort by the deterministic output ordering.
`now` is the clock reading recorded as `analysis_timestamp`. -/
def analyze (cfg : Config) (now : ℚ) (input : List AnomalyRecord) : List RootCauseResult :=
  let anomalies := input.filter (·.is_anomaly)
  let services := dedupKeepFirst (anomalies.map (·.service))
  let clusters :=
    services.flatMap (fun s => groupService cfg (anomalies.filter (fun r => r.service == s)))
  List.insertionSort resLE (clusters.map (mkResult cfg now))

/-- Modelled from the spec: a constructed analyzer (§7b) — a configuration
that passed the construction-time checks. -/
structure RootCauseAnalyzer where
  config : Config
deriving DecidableEq, Repr

/-- Modelled from the spec: configuration validity (§6, §7b) — the three
confidence weights sum to 1.0, the time window is positive, and the
similarity threshold lies in [0,1]. -/
def validConfig (cfg : Config) : Prop :=
  cfg.w_sev + cfg.w_casc + cfg.w_tight = 1 ∧ 0 < cfg.time_window ∧
    0 ≤ cfg.similarity_threshold ∧ cfg.similarity_threshold ≤ 1

instance : DecidablePred validConfig := fun cfg => by
  unfold validConfig
  infer_instance

/-- Modelled from the spec: fail-fast construction (§7b) — constructing the
analyzer rejects an invalid configuration with a descriptive error before
any analysis runs; a valid configuration constructs successfully. -/
def mkAnalyzer (cfg : Config) : Except String RootCauseAnalyzer :=
  if cfg.w_sev + cfg.w_casc + cfg.w_tight ≠ 1 then
    .error "confidence weights must sum to 1.0"
  else if cfg.time_window ≤ 0 then
    .error "time window must be positive"
  else if cfg.similarity_threshold < 0 ∨ 1 < cfg.similarity_threshold then
    .error "similarity threshold must be in [0, 1]"
  else .ok ⟨cfg⟩

/-- Modelled from the spec: a sequence of independent analysis runs (§5) —
the engine holds no cross-call state, so a batch of runs is the per-run
function mapped over the input snapshots. -/
def analyzeRuns (cfg : Config) (now : ℚ) (batches : List (List AnomalyRecord)) :
    List (List RootCauseResult) := batches.map (analyze cfg now)

/-- Substring containment on character lists: does the needle occur as a
contiguous substring? -/
def containsSub (needle : List Char) : List Char → Bool
  | [] => needle.isEmpty
  | c :: rest => needle.isPrefixOf (c :: rest) || containsSub needle rest

/-- Lowercase every character of a string (case-insensitive matching). -/
def toLowerStr (s : String) : String := ⟨s.data.map Char.toLower⟩

/-- Modelled from the spec: KnowledgeBaseEntry (§3) — static configuration
row of the Remediation Knowledge Base. -/
structure KnowledgeBaseEntry where
  category : String
  keywords : List String
  description : String
  fix_steps : List String
  priority : String
  estimated_resolution_time : String
deriving DecidableEq, Repr

/-- Modelled from the spec: match score (§4.7) — the number of the entry's
keywords found as substrings of the search text divided by the number of
keywords in the entry. -/
def matchScore (e : KnowledgeBaseEntry) (text : String) : ℚ :=
  (e.keywords.countP (fun k => containsSub k.data text.data) : ℚ) / (e.keywords.length : ℚ)

/-- Modelled from the spec: RemediationResult (§3). -/
structure RemediationResult where
  issue_category : String
  description : String
  fix_steps : List String
  priority : String
  estimated_resolution_time : String
  confidence_score : ℚ
deriving DecidableEq, Repr

/-- Modelled from the spec: the Remediation Engine (§4.7) of the missing
core — lowercase the concatenation of service and message, iterate the
knowledge-base entries in their fixed order and select the first whose
match score is positive; if none matches, select the `unknown_error`
fallback (always last in the order) with match score 0.  The output
confidence is the average of the match score and the root-cause
confidence. -/
def generate_remediation_on (kb : List KnowledgeBaseEntry) (fallback : KnowledgeBaseEntry)
    (text : String) (root_cause_confidence : ℚ) : RemediationResult :=
  match kb.find? (fun e => decide (0 < matchScore e text)) with
  | some e =>
      { issue_category := e.category, description := e.description,
        fix_steps := e.fix_steps, priority := e.priority,
        estimated_resolution_time := e.estimated_resolution_time,
        confidence_score := (matchScore e text + root_cause_confidence) / 2 }
  | none =>
      { issue_category := fallback.category, description := fallback.description,
        fix_steps := fallback.fix_steps, priority := fallback.priority,
        estimated_resolution_time := fallback.estimated_resolution_time,
        confidence_score := (0 + root_cause_confidence) / 2 }

/-- Modelled from the spec: the Remediation Engine entry point (§4.7) —
builds the lowercase search text from service and message and runs the
fixed-order first-match selection. -/
def generate_remediation (kb : List KnowledgeBaseEntry) (fallback : KnowledgeBaseEntry)
    (root_cause_service root_cause_message : String) (root_cause_confidence : ℚ) :
    RemediationResult :=
  generate_remediation_on kb fallback
    (toLowerStr (root_cause_service ++ " " ++ root_cause_message)) root_cause_confidence

/-- Concrete knowledge-base fixtures used by witnesses: one specific entry
and the mandatory `unknown_error` fallback. -/
def kbDatabaseEntry : KnowledgeBaseEntry :=
  ⟨"database_connection_error", ["database", "connection"],
   "Database connectivity issue", ["Check the connection pool", "Restart the database"],
   "HIGH", "30 minutes"⟩

/-- The `unknown_error` fallback fixture. -/
def kbUnknownEntry : KnowledgeBaseEntry :=
  ⟨"unknown_error", [], "Unrecognized issue", ["Inspect recent logs"],
   "MEDIUM", "1 hour"⟩

/-- The props object taken by the dashboard's `RemediationGuidance`
component (src/dashboard/src/components/RemediationGuidance.jsx);
`Option.none` models an absent / `undefined` field of the JavaScript
object. -/
structure RemediationProps where
  issue_category : Option String
  description : Option String
  fix_steps : Option (List String)
  priority : Option String
  estimated_resolution_time : Option String
  confidence_score : Option ℚ
deriving DecidableEq, Repr

/-- Collapse a JavaScript string by truthiness: `undefined` and the empty
string are falsy and yield nothing. -/
def truthyStr : Option String → Option String
  | none => none
  | some t => if t = "" then none else some t

/-- The rendered output of `RemediationGuidance`: either the
"No remediation guidance available" placeholder, or a guidance view
carrying the priority badge (label and css class), the optional confidence
block, the issue description, the resolution steps together with whether
the steps block is shown, and the optional estimated-time and category
sections. -/
inductive RGView where
  | placeholder
  | guidance (priorityLabel priorityClass : String) (confidence : Option ℚ)
      (description : Option String) (steps : List String) (stepsShown : Bool)
      (estTime : Option String) (category : Option String)
deriving DecidableEq, Repr

/-- The resolution steps carried by a rendered view ([] for the
placeholder). -/
def RGView.stepsOf : RGView → List String
  | .placeholder => []
  | .guidance _ _ _ _ steps _ _ _ => steps

/-- The priority badge label of a rendered view ("" for the placeholder). -/
def RGView.priorityLabelOf : RGView → String
  | .placeholder => ""
  | .guidance pl _ _ _ _ _ _ _ => pl

/-- Shallow embedding of the `RemediationGuidance` render function
(RemediationGuidance.jsx lines 30–101): a nullish `remediation` prop
renders the placeholder; otherwise destructuring defaults supply
`fix_steps = []` and `priority = 'MEDIUM'` for absent fields, the
`PriorityBadge` falls back to css class `medium` and label `UNKNOWN` on a
falsy priority, the steps block renders only for a non-empty list, and the
estimated-time and category sections render only for truthy values. -/
def renderRemediationGuidance : Option RemediationProps → RGView
  | none => .placeholder
  | some r =>
      let steps := r.fix_steps.getD []
      let priority := r.priority.getD "MEDIUM"
      .guidance (if priority = "" then "UNKNOWN" else priority)
        (if priority = "" then "medium" else toLowerStr priority)
        r.confidence_score r.description steps (decide (0 < steps.length))
        (truthyStr r.estimated_resolution_time) (truthyStr r.issue_category)

/-- A JavaScript value reaching `MongoTransport.log` as `info.message`:
either a string, or a non-string value carried with its `JSON.stringify`
rendering. -/
inductive JsValue where
  | str (s : String)
  | other (stringified : String)
deriving DecidableEq, Repr

/-- The `info` object Winston passes to `MongoTransport.log`
(src/demo-app/src/config/mongoTransport.js): level, message, optional
timestamp and service, and the remaining fields as metadata.  `none`
models an absent / `undefined` field. -/
structure LogInfo where
  level : String
  message : JsValue
  timestamp : Option String
  service : Option String
  metadata : List (String × String)
deriving DecidableEq, Repr

/-- A log document as persisted by the demo app's Mongo transport (the
fields set in mongoTransport.js lines 44–50). -/
structure LogEntry where
  timestamp : String
  level : String
  message : String
  service : String
  metadata : List (String × String)
deriving DecidableEq, Repr

/-- Building the Mongo document from the Winston info object
(mongoTransport.js lines 42–50): `timestamp ? new Date(timestamp) :
new Date()` (falsy timestamps fall back to the current time `now`), a
string message kept as is and a non-string one stringified, and
`service || "SentinelAI Demo App"` (falsy service falls back to the
default). -/
def buildLogEntry (now : String) (info : LogInfo) : LogEntry :=
  { timestamp := match info.timestamp with
      | some t => if t = "" then now else t
      | none => now
    level := info.level
    message := match info.message with
      | .str s => s
      | .other j => j
    service := match info.service with
      | some s => if s = "" then "SentinelAI Demo App" else s
      | none => "SentinelAI Demo App"
    metadata := info.metadata }

/-- The externally observable outcome of one `MongoTransport.log` call:
how many times the Winston callback ran, the saved document if any, the
console error if any, and the exception propagated to the caller if
any. -/
structure LogOutcome where
  callbackCalls : ℕ
  saved : Option LogEntry
  consoleError : Option String
  raised : Option String
deriving DecidableEq, Repr

/-- Shallow embedding of `MongoTransport.log` (mongoTransport.js lines
28–60).  `readyState` is `mongoose.connection.readyState`; `buildErr` and
`saveErr` are the environment's choices of an exception thrown while
loading the Log model / building the entry, respectively while awaiting
`logEntry.save()` (`none` = no exception).  The connection check returns
early through the callback with nothing written; the try/catch around
building and saving maps a thrown error to a console message, never to a
propagated exception; the callback runs exactly once on every path. -/
def mongoTransportLog (readyState : Int) (now : String) (info : LogInfo)
    (buildErr saveErr : Option String) : LogOutcome :=
  if readyState ≠ 1 then
    { callbackCalls := 1, saved := none, consoleError := none, raised := none }
  else
    match buildErr with
    | some e =>
        { callbackCalls := 1, saved := none,
          consoleError := some ("MongoTransport error: " ++ e), raised := none }
    | none =>
        match saveErr with
        | some e =>
            { callbackCalls := 1, saved := none,
              consoleError := some ("MongoTransport error: " ++ e), raised := none }
        | none =>
            { callbackCalls := 1, saved := some (buildLogEntry now info),
              consoleError := none, raised := none }

end SentinelAI

namespace SentinelAI

theorem lcsLen_le_left : ∀ (a b : List Char), lcsLen a b ≤ a.length := by
  intro a b
  induction a, b using lcsLen.induct with
  | case1 b => simp [lcsLen]
  | case2 a as => simp [lcsLen]
  | case3 as b bs ih =>
      simp only [lcsLen, if_pos rfl]
      simpa using ih
  | case4 a as b bs h ih1 ih2 =>
      simp only [lcsLen, if_neg h]
      simp at ih1 ih2 ⊢
      omega

theorem lcsLen_le_right : ∀ (a b : List Char), lcsLen a b ≤ b.length := by
  intro a b
  induction a, b using lcsLen.induct with
  | case1 b => simp [lcsLen]
  | case2 a as => simp [lcsLen]
  | case3 as b bs ih =>
      simp only [lcsLen, if_pos rfl]
      simpa using ih
  | case4 a as b bs h ih1 ih2 =>
      simp only [lcsLen, if_neg h]
      simp at ih1 ih2 ⊢
      omega

theorem lcsLen_comm : ∀ (a b : List Char), lcsLen a b = lcsLen b a := by
  intro a b
  induction a, b using lcsLen.induct with
  | case1 b => cases b <;> simp [lcsLen]
  | case2 a as => simp [lcsLen]
  | case3 as b bs ih => simp [lcsLen, ih]
  | case4 a as b bs h ih1 ih2 =>
      have h2 : ¬ b = a := fun hh => h hh.symm
      rw [lcsLen, lcsLen, if_neg h, if_neg h2, ih1, ih2, Nat.max_comm]

theorem lcsLen_self : ∀ (a : List Char), lcsLen a a = a.length := by
  intro a
  induction a with
  | nil => simp [lcsLen]
  | cons x xs ih => simp [lcsLen, ih]

/-- Claim C6: for all strings `a` and `b`, `similarity a b` lies in [0,1],
is symmetric (`similarity a b = similarity b a`) and reflexive
(`similarity a a = 1`); being a pure function of its arguments it is
deterministic with no side effects. -/
theorem similarity_range_symm_refl (a b : String) :
    (0 ≤ similarity a b ∧ similarity a b ≤ 1) ∧
    similarity a b = similarity b a ∧ similarity a a = 1 := by
  refine ⟨⟨?_, ?_⟩, ?_, ?_⟩
  · unfold similarity
    split
    · norm_num
    · positivity
  · unfold similarity
    split
    · norm_num
    · rename_i hne
      have hpos : (0 : ℚ) < (a.data.length : ℚ) + (b.data.length : ℚ) := by
        have : a.data.length + b.data.length ≠ 0 := by
          simp [List.isEmpty_iff] at hne
          rcases Nat.eq_zero_or_pos a.data.length with h | h
          · have : a.data = [] := List.length_eq_zero.mp h
            have hb := hne this
            have : b.data.length ≠ 0 := fun hz => hb (List.length_eq_zero.mp hz)
            omega
          · omega
        exact_mod_cast Nat.pos_of_ne_zero this
      rw [div_le_one hpos]
      have h1 := lcsLen_le_left a.data b.data
      have h2 := lcsLen_le_right a.data b.data
      have : 2 * lcsLen a.data b.data ≤ a.data.length + b.data.length := by omega
      exact_mod_cast this
  · unfold similarity
    rw [Bool.and_comm, lcsLen_comm, add_comm]
  · unfold similarity
    split
    · rfl
    · rename_i hne
      simp [List.isEmpty_iff] at hne
      have hlen : a.data.length ≠ 0 := fun hz => hne (List.length_eq_zero.mp hz)
      have hq : (a.data.length : ℚ) ≠ 0 := Nat.cast_ne_zero.mpr hlen
      have hsum : (a.data.length : ℚ) + (a.data.length : ℚ) ≠ 0 := by
        intro h0
        apply hq
        linarith
      show 2 * (lcsLen a.data a.data : ℚ) / ((a.data.length : ℚ) + (a.data.length : ℚ)) = 1
      rw [lcsLen_self, div_eq_one_iff_eq hsum]
      ring

/-- Claim C2: whenever `select_root_cause` designates a root and symptoms
for a cluster, the root is a member of the cluster with the earliest
timestamp (minimal among all members, independent of anomaly scores) and
the symptoms are exactly the remaining members; with strictly increasing
timestamps T1 < T2 < T3 this pins the T1 record as the root cause. -/
theorem select_root_cause_earliest (l : List AnomalyRecord) (r : AnomalyRecord)
    (rest : List AnomalyRecord) (h : select_root_cause l = some (r, rest)) :
    r ∈ l ∧ (∀ m ∈ l, r.timestamp ≤ m.timestamp) ∧ (r :: rest).Perm l := by
  have hperm : (sortByTs l).Perm l := List.perm_insertionSort tsLE l
  have hsorted : List.Sorted tsLE (sortByTs l) := List.sorted_insertionSort tsLE l
  unfold select_root_cause at h
  rcases heq : sortByTs l with _ | ⟨r', rest'⟩
  · rw [heq] at h
    simp at h
  · rw [heq] at h
    simp at h
    rw [heq, h.1, h.2] at hperm hsorted
    refine ⟨hperm.mem_iff.mp (List.mem_cons_self r rest), ?_, hperm⟩
    intro m hm
    rcases List.mem_cons.mp (hperm.mem_iff.mpr hm) with h1 | h2
    · exact le_of_eq (congrArg AnomalyRecord.timestamp h1.symm)
    · exact (List.rel_of_sorted_cons hsorted m h2 : tsLE r m)

/-- Witness for C2: on the concrete cluster [recB, recC, recA] with
timestamps 2, 3, 1, the record with timestamp 1 is selected as root cause
and the other two are the symptoms. -/
theorem select_root_cause_earliest_witness :
    recA ∈ [recB, recC, recA] ∧
    (∀ m ∈ [recB, recC, recA], recA.timestamp ≤ m.timestamp) ∧
    ([recA, recB, recC]).Perm [recB, recC, recA] :=
  select_root_cause_earliest [recB, recC, recA] recA [recB, recC] (by decide)

theorem clamp01_nonneg (x : ℚ) : 0 ≤ clamp01 x := le_max_left 0 _

theorem clamp01_le_one (x : ℚ) : clamp01 x ≤ 1 := by
  unfold clamp01
  rcases le_total x 1 with h | h
  · exact max_le (by norm_num) (min_le_left 1 x)
  · exact max_le (by norm_num) (min_le_left 1 x)

/-- Claim C4: for every configuration, clock reading and input anomaly
list, the result list of `analyze` is sorted by the deterministic output
ordering `resLE`: confidence descending, ties by total anomalies
descending, remaining ties by root-cause timestamp ascending. -/
theorem analyze_output_sorted (cfg : Config) (now : ℚ) (input : List AnomalyRecord) :
    (analyze cfg now input).Pairwise resLE := by
  unfold analyze
  exact List.sorted_insertionSort resLE _

/-- Claim C5: `analyze` is pure and stateless — the outcome of a run is a
function of the configuration and the input snapshot alone; in a sequence
of runs, the last run's output does not depend on which runs preceded it. -/
theorem analyze_pure_stateless (cfg : Config) (now : ℚ)
    (prev₁ prev₂ : List (List AnomalyRecord)) (input₁ input₂ : List AnomalyRecord)
    (h : input₁ = input₂) :
    (analyzeRuns cfg now (prev₁ ++ [input₁])).getLast? =
      (analyzeRuns cfg now (prev₂ ++ [input₂])).getLast? := by
  subst h
  simp [analyzeRuns]

/-- Witness for C5: two concrete run sequences with different histories and
the same final input produce the same final output. -/
theorem analyze_pure_stateless_witness :
    (analyzeRuns defaultConfig 10 ([[recB]] ++ [[recA, recC]])).getLast? =
      (analyzeRuns defaultConfig 10 ([[], [recC]] ++ [[recA, recC]])).getLast? :=
  analyze_pure_stateless defaultConfig 10 [[recB]] [[], [recC]] [recA, recC] [recA, recC] rfl

/-- Claim C7: `analyze` first filters to records with `is_anomaly = true`;
whenever nothing remains after the filter (in particular on the empty input
list) it returns the empty list — a total function, not an error. -/
theorem analyze_empty_input (cfg : Config) (now : ℚ) (input : List AnomalyRecord)
    (h : input.filter (·.is_anomaly) = []) :
    analyze cfg now input = [] := by
  simp [analyze, h, dedupKeepFirst]

/-- Witness for C7: a concrete input with no anomalous record yields the
empty result list. -/
theorem analyze_empty_input_witness :
    ([⟨5, "web", "ok", 0, false⟩] : List AnomalyRecord).filter (·.is_anomaly) = [] ∧
    analyze defaultConfig 10 [⟨5, "web", "ok", 0, false⟩] = [] :=
  ⟨by decide, analyze_empty_input defaultConfig 10 _ (by decide)⟩

/-- Claim C3: `generate_remediation` lowercases the concatenation of
service and message and selects the first knowledge-base entry in the fixed
iteration order whose match score is positive; when every entry has match
score 0 (no recognized keyword), it selects the `unknown_error` fallback
with match score 0, so the result's `issue_category` is `"unknown_error"`
and the output confidence averages a zero match score with the root-cause
confidence. -/
theorem generate_remediation_first_match_fallback
    (kb : List KnowledgeBaseEntry) (fallback : KnowledgeBaseEntry)
    (s m : String) (conf : ℚ) (hfb : fallback.category = "unknown_error") :
    (∀ e, kb.find? (fun e => decide (0 < matchScore e (toLowerStr (s ++ " " ++ m)))) = some e →
        (generate_remediation kb fallback s m conf).issue_category = e.category ∧
        (generate_remediation kb fallback s m conf).confidence_score =
          (matchScore e (toLowerStr (s ++ " " ++ m)) + conf) / 2) ∧
    ((∀ e ∈ kb, matchScore e (toLowerStr (s ++ " " ++ m)) = 0) →
        (generate_remediation kb fallback s m conf).issue_category = "unknown_error" ∧
        (generate_remediation kb fallback s m conf).confidence_score = (0 + conf) / 2) := by
  constructor
  · intro e he
    unfold generate_remediation generate_remediation_on
    rw [he]
    exact ⟨rfl, rfl⟩
  · intro hzero
    have hnone : kb.find?
        (fun e => decide (0 < matchScore e (toLowerStr (s ++ " " ++ m)))) = none := by
      rw [List.find?_eq_none]
      intro e he
      have := hzero e he
      simp [this]
    unfold generate_remediation generate_remediation_on
    rw [hnone]
    exact ⟨hfb, rfl⟩

/-- Witness for C3: with a one-entry knowledge base and the standard
fallback, a message containing no recognized keyword is categorized
`unknown_error`. -/
theorem generate_remediation_first_match_fallback_witness :
    kbUnknownEntry.category = "unknown_error" ∧
    (generate_remediation [kbDatabaseEntry] kbUnknownEntry "web" "segfault" 1).issue_category =
      "unknown_error" ∧
    (generate_remediation [kbDatabaseEntry] kbUnknownEntry "web" "segfault" 1).confidence_score =
      (0 + 1) / 2 := by
  have h := (generate_remediation_first_match_fallback [kbDatabaseEntry] kbUnknownEntry
      "web" "segfault" 1 rfl).2
  refine ⟨rfl, h ?_⟩
  intro e he
  simp only [List.mem_singleton] at he
  subst he
  have hc : kbDatabaseEntry.keywords.countP
      (fun k => containsSub k.data (toLowerStr ("web" ++ " " ++ "segfault")).data) = 0 := by
    decide
  unfold matchScore
  rw [hc]
  simp

/-- Claim C8: constructing the analyzer succeeds exactly on valid
configurations (weights summing to 1.0, positive time window, threshold in
[0,1]); on an invalid configuration it fails at construction time with a
descriptive (non-empty) error.  Analysis itself (`analyze`) is a total
function, so no configuration error can be raised later. -/
theorem mkAnalyzer_fail_fast (cfg : Config) :
    (mkAnalyzer cfg = .ok ⟨cfg⟩ ↔ validConfig cfg) ∧
    ((∃ e, mkAnalyzer cfg = .error e ∧ e ≠ "") ↔ ¬ validConfig cfg) := by
  unfold mkAnalyzer validConfig
  split_ifs with h1 h2 h3
  · refine ⟨⟨fun h => absurd h (by simp), fun hv => absurd hv.1 h1⟩, ?_⟩
    exact ⟨fun _ hv => h1 hv.1, fun _ => ⟨_, rfl, by decide⟩⟩
  · refine ⟨⟨fun h => absurd h (by simp), fun hv => absurd hv.2.1 (not_lt.mpr h2)⟩, ?_⟩
    exact ⟨fun _ hv => absurd hv.2.1 (not_lt.mpr h2), fun _ => ⟨_, rfl, by decide⟩⟩
  · have hinv : ¬ (cfg.w_sev + cfg.w_casc + cfg.w_tight = 1 ∧ 0 < cfg.time_window ∧
        0 ≤ cfg.similarity_threshold ∧ cfg.similarity_threshold ≤ 1) := by
      rcases h3 with h3 | h3
      · exact fun hv => absurd hv.2.2.1 (not_le.mpr h3)
      · exact fun hv => absurd hv.2.2.2 (not_le.mpr h3)
    refine ⟨⟨fun h => absurd h (by simp), fun hv => absurd hv hinv⟩, ?_⟩
    exact ⟨fun _ => hinv, fun _ => ⟨_, rfl, by decide⟩⟩
  · push_neg at h1 h3
    have hv : cfg.w_sev + cfg.w_casc + cfg.w_tight = 1 ∧ 0 < cfg.time_window ∧
        0 ≤ cfg.similarity_threshold ∧ cfg.similarity_threshold ≤ 1 :=
      ⟨h1, lt_of_not_le h2, h3.1, h3.2⟩
    refine ⟨⟨fun _ => hv, fun _ => rfl⟩, ?_⟩
    exact ⟨fun ⟨e, he, _⟩ => absurd he (by simp), fun hni => absurd hv hni⟩

/-- Claim C9: the RemediationGuidance component is total on missing
remediation data — a nullish `remediation` prop renders the
"no remediation guidance" placeholder, an absent `fix_steps` field falls
back to an empty step list, and an absent `priority` field falls back to
the label "MEDIUM". -/
theorem renderRemediationGuidance_total_defaults :
    renderRemediationGuidance none = RGView.placeholder ∧
    (∀ r : RemediationProps, r.fix_steps = none →
      (renderRemediationGuidance (some r)).stepsOf = []) ∧
    (∀ r : RemediationProps, r.priority = none →
      (renderRemediationGuidance (some r)).priorityLabelOf = "MEDIUM") := by
  refine ⟨rfl, ?_, ?_⟩
  · intro r h
    simp [renderRemediationGuidance, h, RGView.stepsOf]
  · intro r h
    simp [renderRemediationGuidance, h, RGView.priorityLabelOf]

/-- Witness for C9: a concrete props object with every field absent renders
with an empty step list and priority "MEDIUM". -/
theorem renderRemediationGuidance_total_defaults_witness :
    (renderRemediationGuidance (some ⟨none, none, none, none, none, none⟩)).stepsOf = [] ∧
    (renderRemediationGuidance (some ⟨none, none, none, none, none, none⟩)).priorityLabelOf =
      "MEDIUM" :=
  ⟨renderRemediationGuidance_total_defaults.2.1 ⟨none, none, none, none, none, none⟩ rfl,
   renderRemediationGuidance_total_defaults.2.2 ⟨none, none, none, none, none, none⟩ rfl⟩

/-- Claim C10: every invocation of `MongoTransport.log` runs the callback
exactly once and propagates no exception; with the MongoDB connection not
ready the record is silently dropped (nothing saved, nothing on the
console), and an error thrown while building or saving the entry is only
written to the console. -/
theorem mongoTransportLog_never_raises (readyState : Int) (now : String) (info : LogInfo)
    (buildErr saveErr : Option String) :
    (mongoTransportLog readyState now info buildErr saveErr).callbackCalls = 1 ∧
    (mongoTransportLog readyState now info buildErr saveErr).raised = none ∧
    (readyState ≠ 1 →
      mongoTransportLog readyState now info buildErr saveErr =
        { callbackCalls := 1, saved := none, consoleError := none, raised := none }) ∧
    (∀ e, readyState = 1 →
      buildErr = some e ∨ (buildErr = none ∧ saveErr = some e) →
      (mongoTransportLog readyState now info buildErr saveErr).consoleError =
          some ("MongoTransport error: " ++ e) ∧
        (mongoTransportLog readyState now info buildErr saveErr).saved = none) := by
  by_cases h : readyState = 1
  · subst h
    cases buildErr with
    | some e =>
        refine ⟨rfl, rfl, fun hne => absurd rfl hne, ?_⟩
        intro e' _ he
        rcases he with he | ⟨hnone, _⟩
        · cases he
          exact ⟨rfl, rfl⟩
        · cases hnone
    | none =>
        cases saveErr with
        | some e =>
            refine ⟨rfl, rfl, fun hne => absurd rfl hne, ?_⟩
            intro e' _ he
            rcases he with he | ⟨_, he⟩
            · cases he
            · cases he
              exact ⟨rfl, rfl⟩
        | none =>
            refine ⟨rfl, rfl, fun hne => absurd rfl hne, ?_⟩
            intro e' _ he
            rcases he with he | ⟨_, he⟩ <;> cases he
  · have hout : mongoTransportLog readyState now info buildErr saveErr =
        { callbackCalls := 1, saved := none, consoleError := none, raised := none } := by
      unfold mongoTransportLog
      rw [if_pos h]
    exact ⟨by rw [hout], by rw [hout], fun _ => hout, fun e' h1 _ => absurd h1 h⟩

/-- Witness for C10: with a ready connection and a save failure on a
concrete info object, the error goes to the console and nothing is saved. -/
theorem mongoTransportLog_never_raises_witness :
    (mongoTransportLog 1 "t0" ⟨"error", .str "boom", none, none, []⟩ none
        (some "write refused")).consoleError = some ("MongoTransport error: " ++ "write refused") ∧
    (mongoTransportLog 1 "t0" ⟨"error", .str "boom", none, none, []⟩ none
        (some "write refused")).saved = none :=
  (mongoTransportLog_never_raises 1 "t0" ⟨"error", .str "boom", none, none, []⟩ none
      (some "write refused")).2.2.2 "write refused" rfl (Or.inr ⟨rfl, rfl⟩)

/-- Claim C1: for every cluster, the Confidence Scorer under the default
weights returns `clamp01 (0.4 * severity + 0.3 * cascade_size +
0.3 * tightness)`, with severity the clamped average anomaly score,
`cascade_size = min(size/10, 1)` and
`tightness = 1 - min(span/time_window_max, 1)`; the result lies in [0,1]. -/
theorem score_default_formula_and_range (cfg : Config) (l : List AnomalyRecord)
    (hsev : cfg.w_sev = 0.4) (hcasc : cfg.w_casc = 0.3) (htight : cfg.w_tight = 0.3) :
    score cfg l =
      clamp01 (0.4 * clamp01 ((l.map (·.anomaly_score)).sum / l.length)
        + 0.3 * min ((l.length : ℚ) / 10) 1
        + 0.3 * (1 - min (clusterSpan l / cfg.time_window_max) 1))
    ∧ 0 ≤ score cfg l ∧ score cfg l ≤ 1 := by
  refine ⟨?_, clamp01_nonneg _, clamp01_le_one _⟩
  simp [score, severity, cascade_size, tightness, hsev, hcasc, htight]

/-- Witness for C1: the scorer evaluated on a concrete one-member cluster
under the default configuration. -/
theorem score_default_formula_and_range_witness :
    defaultConfig.w_sev = 0.4 ∧
    (score defaultConfig [⟨0, "db", "conn refused", 0.9, true⟩] =
      clamp01 (0.4 * clamp01 ((([⟨0, "db", "conn refused", 0.9, true⟩] : List AnomalyRecord).map (·.anomaly_score)).sum / ([⟨0, "db", "conn refused", 0.9, true⟩] : List AnomalyRecord).length)
        + 0.3 * min ((([⟨0, "db", "conn refused", 0.9, true⟩] : List AnomalyRecord).length : ℚ) / 10) 1
        + 0.3 * (1 - min (clusterSpan [⟨0, "db", "conn refused", 0.9, true⟩] / defaultConfig.time_window_max) 1))
      ∧ 0 ≤ score defaultConfig [⟨0, "db", "conn refused", 0.9, true⟩]
      ∧ score defaultConfig [⟨0, "db", "conn refused", 0.9, true⟩] ≤ 1) :=
  ⟨by norm_num [defaultConfig],
   score_default_formula_and_range defaultConfig _ (by norm_num [defaultConfig])
     (by norm_num [defaultConfig]) (by norm_num [defaultConfig])⟩

end SentinelAI
